import Mathlib

/-!
Shallow embedding of the `gas2nel` resource-metering library.

The primary source is `src/gas2nel.js` (class `Gas2nel`): the capture
orchestrator `#captureMetrics`, the facade `estimateGas`, the gas estimator
`#estimateRealisticGas` with its weight table `#metricWeights` and ceiling
table in `#normalizeMetric`, the report generator `#generateReport`, and the
file-I/O interception wrappers `#trackFileRead` / `#trackFileWrite`.

A second, older variant of the class (shipped in the repository as an unnamed
source file) exposes a public `calculateMetrics`; it is embedded in the `V0`
namespace.

JavaScript numbers are modelled as exact rationals extended with the three
non-finite IEEE values (`JsNum`); machine timestamps and byte counts read
from the platform are integers. Fallible computations return `Except`.
-/

namespace Gas2nel

/-- A JavaScript runtime value, restricted to the shapes that flow through
the measured paths of the source: `undefined`, `null`, booleans, (finite)
numbers, strings, and `Error` objects carrying a `message`. -/
inductive JsVal where
  | undefined
  | nullv
  | boolv (b : Bool)
  | numv (q : ℚ)
  | strv (s : String)
  | errObj (msg : String)
deriving DecidableEq

/-- JavaScript truthiness of a `JsVal`: `undefined`, `null`, `false`, `0`
and `""` are falsy, everything else is truthy. -/
def jsTruthy : JsVal → Bool
  | .undefined => false
  | .nullv => false
  | .boolv b => b
  | .numv q => decide (q ≠ 0)
  | .strv s => decide (s ≠ "")
  | .errObj _ => true

/-- Property access `x.message` as used on a caught value in `estimateGas`:
an `Error` object yields its message string, any other (truthy) value has no
`message` property and yields `undefined`. -/
def jsMessage : JsVal → JsVal
  | .errObj m => .strv m
  | _ => .undefined

/-- A JavaScript number: a finite value (modelled exactly as a rational) or
one of the non-finite IEEE values `NaN`, `Infinity`, `-Infinity`. -/
inductive JsNum where
  | num (q : ℚ)
  | nan
  | inf
  | ninf
deriving DecidableEq

/-- IEEE division of two finite numbers, as performed by the `/` operator on
JavaScript numbers: division by zero yields `NaN` for a zero numerator and a
signed infinity otherwise. -/
def jsDiv (a b : ℚ) : JsNum :=
  if b = 0 then
    if a = 0 then .nan else if 0 < a then .inf else .ninf
  else
    .num (a / b)

/-- Addition of JavaScript numbers (`+=` in the gas accumulation loop):
`NaN` is absorbing, opposite infinities give `NaN`, infinities otherwise
propagate, finite values add exactly. -/
def JsNum.add : JsNum → JsNum → JsNum
  | .nan, _ => .nan
  | _, .nan => .nan
  | .inf, .ninf => .nan
  | .ninf, .inf => .nan
  | .inf, _ => .inf
  | _, .inf => .inf
  | .ninf, _ => .ninf
  | _, .ninf => .ninf
  | .num a, .num b => .num (a + b)

/-- Multiplication of a JavaScript number by a positive finite constant
(the weights and the literal `100` in the source are such constants):
non-finite values keep their kind, finite values multiply exactly. -/
def JsNum.scaleMul : JsNum → ℚ → JsNum
  | .num a, c => .num (a * c)
  | .nan, _ => .nan
  | .inf, _ => .inf
  | .ninf, _ => .ninf

/-- Division of a JavaScript number by a positive finite constant (the
ceilings in `#normalizeMetric` are such constants): non-finite values keep
their kind, finite values divide exactly. -/
def JsNum.scaleDiv : JsNum → ℚ → JsNum
  | .num a, c => .num (a / c)
  | .nan, _ => .nan
  | .inf, _ => .inf
  | .ninf, _ => .ninf

/-- The metric names appearing in the Metrics Record produced by
`#captureMetrics` (and hence the keys the estimator may look up). -/
inductive MetricName where
  | cpuTimeMs
  | cpuPercentage
  | memoryRSS
  | memoryHeapUsed
  | memoryExternal
  | sentBytes
  | receivedBytes
  | wallTimeMs
  | fileReadBytes
  | fileWriteBytes
deriving DecidableEq

/-- The private weight table `#metricWeights` of `src/gas2nel.js`, in the
source's insertion order (the order `Object.entries` iterates it). -/
def metricWeights : List (MetricName × ℚ) :=
  [(.cpuTimeMs, 35/100),
   (.cpuPercentage, 20/100),
   (.memoryRSS, 15/100),
   (.memoryHeapUsed, 10/100),
   (.memoryExternal, 5/100),
   (.sentBytes, 5/100),
   (.receivedBytes, 5/100),
   (.wallTimeMs, 5/100)]

/-- The metric names carrying a weight, i.e. the keys of `#metricWeights`. -/
def weightNames : List MetricName := metricWeights.map Prod.fst

/-- The ceiling table `maxValues` of `#normalizeMetric`. It has an entry
for every `MetricName`, so the source's `|| 1` fallback never fires. -/
def maxValues : MetricName → ℚ
  | .cpuTimeMs => 10000
  | .wallTimeMs => 1000
  | .memoryHeapUsed => 500 * 1024 * 1024
  | .memoryRSS => 1000 * 1024 * 1024
  | .memoryExternal => 100 * 1024 * 1024
  | .cpuPercentage => 100
  | .sentBytes => 10 * 1024 * 1024
  | .receivedBytes => 10 * 1024 * 1024
  | .fileReadBytes => 20 * 1024 * 1024
  | .fileWriteBytes => 20 * 1024 * 1024

/-- `#normalizeMetric`: divide the raw value by the metric's ceiling. -/
def normalizeMetric (metric : MetricName) (value : JsNum) : JsNum :=
  value.scaleDiv (maxValues metric)

/-- A metrics object as seen by the estimator: a lookup from metric name to
the stored number. `none` models a key that is absent or whose value is not
a number — the two cases the source's
`value !== undefined && typeof value === 'number'` guard skips identically. -/
def MetricsObj : Type := MetricName → Option JsNum

/-- `#estimateRealisticGas`: fold over the weight table, adding
`normalizedValue * weight` for every metric present in the object. -/
def estimateRealisticGas (metrics : MetricsObj) : JsNum :=
  metricWeights.foldl
    (fun gasEstimation p =>
      match metrics p.1 with
      | some value => gasEstimation.add ((normalizeMetric p.1 value).scaleMul p.2)
      | none => gasEstimation)
    (.num 0)

/-- `Number.prototype.toFixed(2)` on an exactly-represented value: round to
the nearest multiple of `1/100` (ties away from zero) and print with two
digits after the decimal point. -/
def jsToFixed2 (q : ℚ) : String :=
  if q < 0 then
    let n : ℕ := (⌊(-q) * 100 + 1/2⌋).toNat
    "-" ++ toString (n / 100) ++ "." ++
      (if n % 100 < 10 then "0" ++ toString (n % 100) else toString (n % 100))
  else
    let n : ℕ := (⌊q * 100 + 1/2⌋).toNat
    toString (n / 100) ++ "." ++
      (if n % 100 < 10 then "0" ++ toString (n % 100) else toString (n % 100))

/-- The Metrics Record built by `#captureMetrics` (src/gas2nel.js, lines
133–144). All fields are finite except `cpuPercentage`, which is a raw
float division and can be non-finite. -/
structure MetricsRec where
  cpuTimeMs : ℚ
  wallTimeMs : ℚ
  memoryHeapUsed : ℚ
  memoryRSS : ℚ
  memoryExternal : ℚ
  cpuPercentage : JsNum
  sentBytes : ℚ
  receivedBytes : ℚ
  fileReadBytes : ℚ
  fileWriteBytes : ℚ
deriving DecidableEq

/-- View a produced Metrics Record as a metrics object: every field is
present and is a number. -/
def recToObj (m : MetricsRec) : MetricsObj
  | .cpuTimeMs => some (.num m.cpuTimeMs)
  | .wallTimeMs => some (.num m.wallTimeMs)
  | .memoryHeapUsed => some (.num m.memoryHeapUsed)
  | .memoryRSS => some (.num m.memoryRSS)
  | .memoryExternal => some (.num m.memoryExternal)
  | .cpuPercentage => some m.cpuPercentage
  | .sentBytes => some (.num m.sentBytes)
  | .receivedBytes => some (.num m.receivedBytes)
  | .fileReadBytes => some (.num m.fileReadBytes)
  | .fileWriteBytes => some (.num m.fileWriteBytes)

/-- The report object produced by `#generateReport`. The source's `fileIO`
key is embedded under the name `fileIOKB` (same value, suffix " KB"). -/
structure Report where
  cpuTimeMs : ℚ
  wallTimeMs : ℚ
  peakMemoryRSS : String
  memoryHeapUsed : String
  memoryExternal : String
  networkTransferred : String
  fileIOKB : String
deriving DecidableEq

/-- `#generateReport` (src/gas2nel.js, lines 196–206): `cpuTimeMs` and
`wallTimeMs` pass through verbatim; memory figures are formatted in MB
(divide by 1024², `toFixed(2)`); network and file traffic in KB (divide by
1024, `toFixed(2)`). -/
def generateReport (metrics : MetricsRec) : Report :=
  { cpuTimeMs := metrics.cpuTimeMs
    wallTimeMs := metrics.wallTimeMs
    peakMemoryRSS := jsToFixed2 (metrics.memoryRSS / (1024 ^ 2)) ++ " MB"
    memoryHeapUsed := jsToFixed2 (metrics.memoryHeapUsed / (1024 ^ 2)) ++ " MB"
    memoryExternal := jsToFixed2 (metrics.memoryExternal / (1024 ^ 2)) ++ " MB"
    networkTransferred := jsToFixed2 ((metrics.sentBytes + metrics.receivedBytes) / 1024) ++ " KB"
    fileIOKB := jsToFixed2 ((metrics.fileReadBytes + metrics.fileWriteBytes) / 1024) ++ " KB" }

/-- The per-invocation platform readings `#captureMetrics` takes through the
collaborator facilities: `process.cpuUsage` (microseconds), `process.memoryUsage`
(bytes), `process.hrtime.bigint` (nanoseconds). `cpuUserDelta` is the `user`
field of `process.cpuUsage(startCpu)`, i.e. already the window delta. -/
structure Env where
  cpuUserDelta : ℤ
  heapStart : ℤ
  heapEnd : ℤ
  rssStart : ℤ
  rssEnd : ℤ
  extStart : ℤ
  extEnd : ℤ
  timeStartNs : ℤ
  timeEndNs : ℤ
deriving DecidableEq

/-- The invocation counters `this.sentBytes` … `this.fileWriteBytes` that
`reset()` zeroes and the interception hooks increment. -/
structure Counters where
  sentBytes : ℚ
  receivedBytes : ℚ
  fileReadBytes : ℚ
  fileWriteBytes : ℚ
deriving DecidableEq

/-- The mutable state visible to one measurement: the three intercepted
module slots (`http.request`, `fs.readFile`, `fs.writeFile`, holding
function values of an abstract type `F`), the invocation counters, and the
remaining state of the collaborator modules (abstract type `O`), which the
meter itself never touches. -/
structure MState (F O : Type) where
  http_request : F
  fs_readFile : F
  fs_writeFile : F
  counters : Counters
  otherState : O

/-- The outcome of awaiting the measured operation: a fulfilled value, or a
thrown/rejected value (any `JsVal`, not necessarily an `Error`). -/
inductive OpOutcome where
  | ok (v : JsVal)
  | thrown (e : JsVal)

/-- An operation under measurement: it runs against the current state (its
calls through the installed hooks mutate the counters; it could even
reassign the module slots) and finishes with an `OpOutcome`. -/
def Operation (F O : Type) : Type := MState F O → OpOutcome × MState F O

/-- The observable phases of `#captureMetrics`, in execution order. -/
inductive Ev where
  | reset
  | startSnap
  | install
  | runOp
  | restore
  | endSnap
deriving DecidableEq

/-- What `#captureMetrics` hands back: the `result` and `error` locals and
the Metrics Record. -/
structure CaptureRes where
  result : JsVal
  error : JsVal
  metrics : MetricsRec

/-- Full output of one `#captureMetrics` run: its return value, the final
module/counter state, and the trace of executed phases. -/
structure CaptureOut (F O : Type) where
  res : CaptureRes
  state : MState F O
  trace : List Ev

/-- `#captureMetrics` (src/gas2nel.js, lines 100–147): reset the counters,
snapshot, save the three original integration points, install the counting
wrappers, run the operation under `try`/`catch`, restore the originals
unconditionally, snapshot again, and assemble the Metrics Record.
`wrapHttp`/`wrapRead`/`wrapWrite` embed `#trackHttpBandwidth`,
`#trackFileRead` and `#trackFileWrite` as slot-level transformations. -/
def captureMetrics {F O : Type} (wrapHttp wrapRead wrapWrite : F → F)
    (env : Env) (fn : Operation F O) (s0 : MState F O) : CaptureOut F O :=
  let s1 : MState F O := { s0 with counters := ⟨0, 0, 0, 0⟩ }
  let originalRequest := s1.http_request
  let originalReadFile := s1.fs_readFile
  let originalWriteFile := s1.fs_writeFile
  let s2 : MState F O := { s1 with
    http_request := wrapHttp originalRequest
    fs_readFile := wrapRead originalReadFile
    fs_writeFile := wrapWrite originalWriteFile }
  let step := fn s2
  let result : JsVal := match step.1 with
    | .ok v => v
    | .thrown _ => .undefined
  let error : JsVal := match step.1 with
    | .ok _ => .undefined
    | .thrown e => e
  let s4 : MState F O := { step.2 with
    http_request := originalRequest
    fs_readFile := originalReadFile
    fs_writeFile := originalWriteFile }
  let wallNs : ℤ := env.timeEndNs - env.timeStartNs
  let metrics : MetricsRec := {
    cpuTimeMs := (env.cpuUserDelta : ℚ) / 1000
    wallTimeMs := ((Int.tdiv wallNs 1000000 : ℤ) : ℚ)
    memoryHeapUsed := ((env.heapEnd - env.heapStart : ℤ) : ℚ)
    memoryRSS := ((env.rssEnd - env.rssStart : ℤ) : ℚ)
    memoryExternal := ((env.extEnd - env.extStart : ℤ) : ℚ)
    cpuPercentage := (jsDiv (env.cpuUserDelta : ℚ) (wallNs : ℚ)).scaleMul 100
    sentBytes := s4.counters.sentBytes
    receivedBytes := s4.counters.receivedBytes
    fileReadBytes := s4.counters.fileReadBytes
    fileWriteBytes := s4.counters.fileWriteBytes }
  { res := ⟨result, error, metrics⟩
    state := s4
    trace := [Ev.reset, Ev.startSnap, Ev.install, Ev.runOp, Ev.restore, Ev.endSnap] }

/-- The meter's configuration: `options.include`, `none` when the key is
absent/undefined (an empty array is present, and truthy, in JavaScript). -/
structure Options where
  includeOpt : Option (List String)

/-- The Result envelope assembled by `estimateGas`; `metric`/`report` are
`none` when the corresponding key is not attached. -/
structure Output where
  success : Bool
  data : JsVal
  gas : JsNum
  metric : Option MetricsRec
  report : Option Report

/-- Full output of one `estimateGas` call: the Result and the final state. -/
structure EstimateOut (F O : Type) where
  output : Output
  state : MState F O

/-- `estimateGas` (src/gas2nel.js, lines 74–90): run `#captureMetrics`,
score the Metrics Record, and assemble the Result; `success` is the negated
truthiness of the caught value, `data` is `error.message` on a truthy error
and the (possibly never assigned, hence `undefined`) `result` otherwise;
`metric` and `report` are attached according to `options.include`. -/
def estimateGas {F O : Type} (wrapHttp wrapRead wrapWrite : F → F)
    (env : Env) (opts : Options) (fn : Operation F O) (s0 : MState F O) :
    EstimateOut F O :=
  let cap := captureMetrics wrapHttp wrapRead wrapWrite env fn s0
  let gas := estimateRealisticGas (recToObj cap.res.metrics)
  let base : Output := {
    success := !(jsTruthy cap.res.error)
    data := if jsTruthy cap.res.error then jsMessage cap.res.error else cap.res.result
    gas := gas
    metric := none
    report := none }
  let out : Output := match opts.includeOpt with
    | none => base
    | some l =>
      let withMetric := if l.contains "metric" then { base with metric := some cap.res.metrics } else base
      if l.contains "report" then { withMetric with report := some (generateReport cap.res.metrics) } else withMetric
  ⟨out, cap.state⟩

/-- The two observable effects of one call through a file-interception
wrapper: bumping a counter by `n` bytes, and delegating to the original
filesystem entry point. -/
inductive FsEv where
  | count (n : ℕ)
  | delegate
deriving DecidableEq

/-- The wrapper produced by `#trackFileWrite` (src/gas2nel.js, lines
249–254), applied to one call: `if (data)` increment `fileWriteBytes` by the
byte length of the payload, then delegate to the original `fs.writeFile`,
whose outcome (`none` on success, a truthy error value on failure) is passed
to the caller's callback unchanged. The payload is modelled as its byte
sequence; an empty payload is the falsy case of `if (data)`. The returned
trace records the order of the two effects. -/
def trackFileWrite (st : Counters) (data : List UInt8) (underlyingErr : Option JsVal) :
    Counters × List FsEv × Option JsVal :=
  if data ≠ [] then
    ({ st with fileWriteBytes := st.fileWriteBytes + data.length },
     [FsEv.count data.length, FsEv.delegate], underlyingErr)
  else
    (st, [FsEv.delegate], underlyingErr)

/-- The wrapper produced by `#trackFileRead` (src/gas2nel.js, lines
234–241), applied to one call: delegate to the original `fs.readFile` and,
in its callback, `if (!err && data)` increment `fileReadBytes` by
`data.length` before forwarding `(err, data)` to the caller's callback.
`underlyingErr = none` models the `null` error of a successful read;
`underlyingData = none` models an absent (`undefined`) buffer, and a present
buffer is truthy even when empty. -/
def trackFileRead (st : Counters) (underlyingErr : Option JsVal)
    (underlyingData : Option (List UInt8)) :
    Counters × Option JsVal × Option (List UInt8) :=
  let errTruthy : Bool := (underlyingErr.map jsTruthy).getD false
  match underlyingData with
  | some d =>
      if errTruthy then (st, underlyingErr, underlyingData)
      else ({ st with fileReadBytes := st.fileReadBytes + d.length },
            underlyingErr, underlyingData)
  | none => (st, underlyingErr, underlyingData)

namespace V0

/-- The Metrics Record of the older `Gas2nel` variant (the unnamed source
file shipping a public `calculateMetrics`): no file-I/O fields, and
`cpuPercentage` is a `BigInt` quotient. -/
structure MetricsRec where
  cpuTimeMs : ℚ
  wallTimeMs : ℚ
  memoryHeapUsed : ℚ
  memoryRSS : ℚ
  memoryExternal : ℚ
  cpuPercentage : ℤ
  sentBytes : ℚ
  receivedBytes : ℚ
deriving DecidableEq

/-- The mutable state of the older variant: only `http.request` is
intercepted, and only the two network counters exist. -/
structure MState (F O : Type) where
  http_request : F
  sentBytes : ℚ
  receivedBytes : ℚ
  otherState : O

/-- `BigInt` division: truncation toward zero, and a thrown `RangeError`
("Division by zero") when the divisor is zero. -/
def bigintDiv (a b : ℤ) : Except JsVal ℤ :=
  if b = 0 then .error (.errObj "Division by zero") else .ok (Int.tdiv a b)

/-- The private `#calculateMetrics` of the older variant: reset the two
network counters, snapshot, swap `http.request` for the counting wrapper,
run the operation under `try`/`catch`, restore, snapshot again, and build
the record — whose `cpuPercentage` field is the `BigInt` quotient
`(BigInt(endCpu.user) * 100n) / (endTime - startTime)` and therefore throws
when the wall-clock delta is zero. -/
def calculateMetricsAux {F O : Type} (wrapHttp : F → F) (env : Env)
    (fn : MState F O → OpOutcome × MState F O) (s0 : MState F O) :
    Except JsVal (JsVal × JsVal × MetricsRec × MState F O) :=
  let s1 : MState F O := { s0 with sentBytes := 0, receivedBytes := 0 }
  let originalRequest := s1.http_request
  let s2 : MState F O := { s1 with http_request := wrapHttp originalRequest }
  let step := fn s2
  let result : JsVal := match step.1 with
    | .ok v => v
    | .thrown _ => .undefined
  let error : JsVal := match step.1 with
    | .ok _ => .undefined
    | .thrown e => e
  let s4 : MState F O := { step.2 with http_request := originalRequest }
  let wallNs : ℤ := env.timeEndNs - env.timeStartNs
  match bigintDiv (env.cpuUserDelta * 100) wallNs with
  | .error e => .error e
  | .ok pct =>
      .ok (result, error,
        { cpuTimeMs := (env.cpuUserDelta : ℚ) / 1000
          wallTimeMs := ((Int.tdiv wallNs 1000000 : ℤ) : ℚ)
          memoryHeapUsed := ((env.heapEnd - env.heapStart : ℤ) : ℚ)
          memoryRSS := ((env.rssEnd - env.rssStart : ℤ) : ℚ)
          memoryExternal := ((env.extEnd - env.extStart : ℤ) : ℚ)
          cpuPercentage := pct
          sentBytes := s4.sentBytes
          receivedBytes := s4.receivedBytes }, s4)

/-- The public `calculateMetrics(fn, ...args)` of the older variant: await
the private `#calculateMetrics` and return only `measurement.metrics`; any
value thrown inside (the operation's own failure is caught, but the
`BigInt` division is not guarded) surfaces as a rejection. -/
def calculateMetrics {F O : Type} (wrapHttp : F → F) (env : Env)
    (fn : MState F O → OpOutcome × MState F O) (s0 : MState F O) :
    Except JsVal MetricsRec :=
  match calculateMetricsAux wrapHttp env fn s0 with
  | .error e => .error e
  | .ok m => .ok m.2.2.1

end V0

/-! ### Helper lemmas shared by several claims -/

/-- Adding the finite number `0` (the contribution of a zero-valued metric)
leaves any JavaScript number unchanged. -/
theorem JsNum.add_num_zero (x : JsNum) : x.add (.num 0) = x := by
  cases x <;> simp [JsNum.add]

/-- Evaluation of `#estimateRealisticGas` on an object whose eight weighted
fields are finite numbers: the weighted sum of ceiling-normalized values. -/
theorem estimateRealisticGas_eval (f : MetricsObj) (v1 v2 v3 v4 v5 v6 v7 v8 : ℚ)
    (h1 : f .cpuTimeMs = some (.num v1))
    (h2 : f .cpuPercentage = some (.num v2))
    (h3 : f .memoryRSS = some (.num v3))
    (h4 : f .memoryHeapUsed = some (.num v4))
    (h5 : f .memoryExternal = some (.num v5))
    (h6 : f .sentBytes = some (.num v6))
    (h7 : f .receivedBytes = some (.num v7))
    (h8 : f .wallTimeMs = some (.num v8)) :
    estimateRealisticGas f = JsNum.num
      ((35/100) * (v1 / 10000) + (20/100) * (v2 / 100) +
       (15/100) * (v3 / (1000 * 1024 * 1024)) + (10/100) * (v4 / (500 * 1024 * 1024)) +
       (5/100) * (v5 / (100 * 1024 * 1024)) + (5/100) * (v6 / (10 * 1024 * 1024)) +
       (5/100) * (v7 / (10 * 1024 * 1024)) + (5/100) * (v8 / 1000)) := by
  simp [estimateRealisticGas, metricWeights, h1, h2, h3, h4, h5, h6, h7, h8,
    normalizeMetric, maxValues, JsNum.scaleDiv, JsNum.scaleMul, JsNum.add]
  ring

/-- The success/data/gas fields of the Result do not depend on the
`include` configuration. -/
theorem estimateGas_core {F O : Type} (wrapHttp wrapRead wrapWrite : F → F)
    (env : Env) (opts : Options) (fn : Operation F O) (s0 : MState F O) :
    (estimateGas wrapHttp wrapRead wrapWrite env opts fn s0).output.success =
      !(jsTruthy (captureMetrics wrapHttp wrapRead wrapWrite env fn s0).res.error) ∧
    (estimateGas wrapHttp wrapRead wrapWrite env opts fn s0).output.data =
      (if jsTruthy (captureMetrics wrapHttp wrapRead wrapWrite env fn s0).res.error
       then jsMessage (captureMetrics wrapHttp wrapRead wrapWrite env fn s0).res.error
       else (captureMetrics wrapHttp wrapRead wrapWrite env fn s0).res.result) ∧
    (estimateGas wrapHttp wrapRead wrapWrite env opts fn s0).output.gas =
      estimateRealisticGas (recToObj (captureMetrics wrapHttp wrapRead wrapWrite env fn s0).res.metrics) := by
  rcases opts with ⟨_ | l⟩
  · simp [estimateGas]
  · simp only [estimateGas]
    split <;> split <;> simp_all

/-! ### Claim C2 -/

/-- Claim C2: on every exit path of a measurement (the operation returns or
throws), `#captureMetrics` restores `http.request`, `fs.readFile` and
`fs.writeFile` to exactly the function values they held before the
measurement began; the remaining state of the collaborator modules (which
the meter never touches) is unchanged whenever the operation leaves it
unchanged; and in the phase trace the restoration strictly precedes the
`end` snapshot. -/
theorem captureMetrics_restores_hooks {F O : Type}
    (wrapHttp wrapRead wrapWrite : F → F) (env : Env) (fn : Operation F O)
    (s0 : MState F O)
    (hother : ∀ s, ((fn s).2).otherState = s.otherState) :
    (captureMetrics wrapHttp wrapRead wrapWrite env fn s0).state.http_request = s0.http_request ∧
    (captureMetrics wrapHttp wrapRead wrapWrite env fn s0).state.fs_readFile = s0.fs_readFile ∧
    (captureMetrics wrapHttp wrapRead wrapWrite env fn s0).state.fs_writeFile = s0.fs_writeFile ∧
    (captureMetrics wrapHttp wrapRead wrapWrite env fn s0).state.otherState = s0.otherState ∧
    ∃ i j, i < j ∧
      (captureMetrics wrapHttp wrapRead wrapWrite env fn s0).trace.get? i = some Ev.restore ∧
      (captureMetrics wrapHttp wrapRead wrapWrite env fn s0).trace.get? j = some Ev.endSnap := by
  refine ⟨?_, ?_, ?_, ?_, 4, 5, by norm_num, ?_, ?_⟩ <;>
    simp [captureMetrics, hother]

/-- Instantiation of the hook-restoration theorem at a concrete throwing
operation and concrete module state. -/
theorem captureMetrics_restores_hooks_witness :
    (∀ s : MState ℕ ℕ,
        (((fun s : MState ℕ ℕ => (OpOutcome.thrown (JsVal.errObj "boom"), s)) s).2).otherState
          = s.otherState) ∧
    ((captureMetrics (F := ℕ) (O := ℕ) Nat.succ Nat.succ Nat.succ
        ⟨0, 0, 0, 0, 0, 0, 0, 0, 0⟩
        (fun s => (OpOutcome.thrown (JsVal.errObj "boom"), s))
        ⟨7, 8, 9, ⟨0, 0, 0, 0⟩, 5⟩).state.http_request = 7 ∧
     (captureMetrics (F := ℕ) (O := ℕ) Nat.succ Nat.succ Nat.succ
        ⟨0, 0, 0, 0, 0, 0, 0, 0, 0⟩
        (fun s => (OpOutcome.thrown (JsVal.errObj "boom"), s))
        ⟨7, 8, 9, ⟨0, 0, 0, 0⟩, 5⟩).state.otherState = 5) := by
  refine ⟨fun s => rfl, ?_, ?_⟩
  · exact (captureMetrics_restores_hooks Nat.succ Nat.succ Nat.succ _ _ _
      (fun s => rfl)).1
  · exact (captureMetrics_restores_hooks Nat.succ Nat.succ Nat.succ _ _ _
      (fun s => rfl)).2.2.2.1

/-! ### Claim C3 -/

/-- Claim C3: when the operation fails with an `Error` whose message is `m`,
`estimateGas` does not propagate the failure (it returns a Result), the
Result has `success = false` and `data = m`, and `gas` is still the
estimator applied to the full Metrics Record of the partial execution. -/
theorem estimateGas_failure {F O : Type} (wrapHttp wrapRead wrapWrite : F → F)
    (env : Env) (opts : Options) (fn : Operation F O) (s0 : MState F O)
    (m : String)
    (hfail : ∀ s, (fn s).1 = OpOutcome.thrown (JsVal.errObj m)) :
    (estimateGas wrapHttp wrapRead wrapWrite env opts fn s0).output.success = false ∧
    (estimateGas wrapHttp wrapRead wrapWrite env opts fn s0).output.data = JsVal.strv m ∧
    (estimateGas wrapHttp wrapRead wrapWrite env opts fn s0).output.gas =
      estimateRealisticGas (recToObj (captureMetrics wrapHttp wrapRead wrapWrite env fn s0).res.metrics) := by
  obtain ⟨hs, hd, hg⟩ := estimateGas_core wrapHttp wrapRead wrapWrite env opts fn s0
  refine ⟨?_, ?_, hg⟩
  · rw [hs]
    simp [captureMetrics, hfail, jsTruthy]
  · rw [hd]
    simp [captureMetrics, hfail, jsTruthy, jsMessage]

/-- Instantiation of the failure-path theorem at the test-suite's concrete
failing operation (message "Test error"). -/
theorem estimateGas_failure_witness :
    (∀ s : MState ℕ ℕ,
        ((fun s : MState ℕ ℕ => (OpOutcome.thrown (JsVal.errObj "Test error"), s)) s).1
          = OpOutcome.thrown (JsVal.errObj "Test error")) ∧
    (estimateGas (F := ℕ) (O := ℕ) id id id ⟨0, 0, 0, 0, 0, 0, 0, 0, 0⟩ ⟨none⟩
        (fun s => (OpOutcome.thrown (JsVal.errObj "Test error"), s))
        ⟨0, 0, 0, ⟨0, 0, 0, 0⟩, 0⟩).output.success = false ∧
    (estimateGas (F := ℕ) (O := ℕ) id id id ⟨0, 0, 0, 0, 0, 0, 0, 0, 0⟩ ⟨none⟩
        (fun s => (OpOutcome.thrown (JsVal.errObj "Test error"), s))
        ⟨0, 0, 0, ⟨0, 0, 0, 0⟩, 0⟩).output.data = JsVal.strv "Test error" := by
  refine ⟨fun s => rfl, ?_, ?_⟩
  · exact (estimateGas_failure id id id _ _ _ _ "Test error" (fun s => rfl)).1
  · exact (estimateGas_failure id id id _ _ _ _ "Test error" (fun s => rfl)).2.1

/-! ### Claim C9 -/

/-- Claim C9: when the operation throws a falsy value (0, "", null,
undefined, false), `estimateGas` reports `success = true` — the flag is the
negated truthiness of the caught value — and `data = undefined` (the
`result` local was never assigned). -/
theorem estimateGas_falsy_throw {F O : Type} (wrapHttp wrapRead wrapWrite : F → F)
    (env : Env) (opts : Options) (fn : Operation F O) (s0 : MState F O)
    (e : JsVal) (hfalsy : jsTruthy e = false)
    (hfail : ∀ s, (fn s).1 = OpOutcome.thrown e) :
    (estimateGas wrapHttp wrapRead wrapWrite env opts fn s0).output.success = true ∧
    (estimateGas wrapHttp wrapRead wrapWrite env opts fn s0).output.data = JsVal.undefined := by
  obtain ⟨hs, hd, _⟩ := estimateGas_core wrapHttp wrapRead wrapWrite env opts fn s0
  refine ⟨?_, ?_⟩
  · rw [hs]
    simp [captureMetrics, hfail, hfalsy]
  · rw [hd]
    simp [captureMetrics, hfail, hfalsy]

/-- Instantiation of the falsy-throw theorem at an operation that throws
the number 0. -/
theorem estimateGas_falsy_throw_witness :
    jsTruthy (JsVal.numv 0) = false ∧
    (∀ s : MState ℕ ℕ,
        ((fun s : MState ℕ ℕ => (OpOutcome.thrown (JsVal.numv 0), s)) s).1
          = OpOutcome.thrown (JsVal.numv 0)) ∧
    (estimateGas (F := ℕ) (O := ℕ) id id id ⟨0, 0, 0, 0, 0, 0, 0, 0, 0⟩ ⟨none⟩
        (fun s => (OpOutcome.thrown (JsVal.numv 0), s))
        ⟨0, 0, 0, ⟨0, 0, 0, 0⟩, 0⟩).output.success = true := by
  refine ⟨by simp [jsTruthy], fun s => rfl, ?_⟩
  exact (estimateGas_falsy_throw id id id _ _ _ _ (JsVal.numv 0)
    (by simp [jsTruthy]) (fun s => rfl)).1

/-! ### Claim C6 -/

/-- Claim C6: on both the success and the failure path, the Result carries
the `metric` key iff `"metric"` is in the configured include list and the
`report` key iff `"report"` is, where an omitted `include` behaves as the
empty list (under which neither key is ever attached, while with
`["metric","report"]` both always are). -/
theorem estimateGas_include_keys {F O : Type} (wrapHttp wrapRead wrapWrite : F → F)
    (env : Env) (opts : Options) (fn : Operation F O) (s0 : MState F O) :
    ((estimateGas wrapHttp wrapRead wrapWrite env opts fn s0).output.metric.isSome = true ↔
      "metric" ∈ opts.includeOpt.getD []) ∧
    ((estimateGas wrapHttp wrapRead wrapWrite env opts fn s0).output.report.isSome = true ↔
      "report" ∈ opts.includeOpt.getD []) := by
  rcases opts with ⟨_ | l⟩
  · simp [estimateGas]
  · simp only [estimateGas, Option.getD_some]
    constructor
    · split <;> split <;> simp_all [List.elem_iff]
    · split <;> split <;> simp_all [List.elem_iff]

/-! ### Claim C1 -/

/-- Claim C1, counterexample: the claim's zero-wall-time clause and
same-unit clause are both false at explicit inputs. With a zero CPU delta
and a zero wall-clock window (`hrtime` reads 5 and 5), `cpuPercentage` is
`NaN`, not `0`. With a CPU delta of 1000 µs (= 1 ms) over a wall window of
2 000 000 ns (= 2 ms), the produced `cpuPercentage` is `1/20`, while
`100 × (cpu / wall)` with both in milliseconds is `50`. -/
theorem cpuPercentage_counterexample :
    (captureMetrics (F := ℕ) (O := ℕ) id id id ⟨0, 0, 0, 0, 0, 0, 0, 5, 5⟩
        (fun s => (OpOutcome.ok JsVal.undefined, s))
        ⟨0, 0, 0, ⟨0, 0, 0, 0⟩, 0⟩).res.metrics.cpuPercentage = JsNum.nan ∧
    JsNum.nan ≠ JsNum.num 0 ∧
    (captureMetrics (F := ℕ) (O := ℕ) id id id ⟨1000, 0, 0, 0, 0, 0, 0, 0, 2000000⟩
        (fun s => (OpOutcome.ok JsVal.undefined, s))
        ⟨0, 0, 0, ⟨0, 0, 0, 0⟩, 0⟩).res.metrics.cpuPercentage = JsNum.num (1/20) ∧
    (1/20 : ℚ) ≠ 100 * (((1000 : ℚ) / 1000) / ((2000000 : ℚ) / 1000000)) := by
  refine ⟨?_, by simp, ?_, by norm_num⟩
  · norm_num [captureMetrics, jsDiv, JsNum.scaleMul]
  · norm_num [captureMetrics, jsDiv, JsNum.scaleMul]

/-- Claim C1 as amended: `cpuPercentage` is `100 ×` the raw quotient of the
CPU delta in MICROseconds by the wall delta in NANOseconds (a factor 1000
below the same-unit ratio), and when the wall delta is zero it is `NaN` for
a zero CPU delta and a signed infinity otherwise — never `0`. -/
theorem captureMetrics_cpuPercentage_formula {F O : Type}
    (wrapHttp wrapRead wrapWrite : F → F) (env : Env) (fn : Operation F O)
    (s0 : MState F O) :
    (captureMetrics wrapHttp wrapRead wrapWrite env fn s0).res.metrics.cpuPercentage =
      (if env.timeEndNs - env.timeStartNs = 0 then
        (if env.cpuUserDelta = 0 then JsNum.nan
         else if 0 < env.cpuUserDelta then JsNum.inf else JsNum.ninf)
       else JsNum.num (100 * (env.cpuUserDelta : ℚ) / ((env.timeEndNs - env.timeStartNs : ℤ) : ℚ))) := by
  simp only [captureMetrics, jsDiv, JsNum.scaleMul, Int.cast_eq_zero, Int.cast_pos]
  split_ifs <;> simp_all
  ring

/-! ### Claim C4 -/

/-- Claim C4: on a record whose eight weighted metrics are (finite) numbers,
the gas estimate is exactly the weighted sum of value/ceiling over the fixed
weight table — independently of the `fileReadBytes`/`fileWriteBytes`
entries, which carry no weight; a metric absent from the record contributes
exactly as much as a zero value; and the all-zero record scores 0. -/
theorem estimateRealisticGas_weighted_sum :
    (∀ (v1 v2 v3 v4 v5 v6 v7 v8 : ℚ) (fr fw : Option JsNum),
      estimateRealisticGas (fun n => match n with
        | .cpuTimeMs => some (.num v1)
        | .cpuPercentage => some (.num v2)
        | .memoryRSS => some (.num v3)
        | .memoryHeapUsed => some (.num v4)
        | .memoryExternal => some (.num v5)
        | .sentBytes => some (.num v6)
        | .receivedBytes => some (.num v7)
        | .wallTimeMs => some (.num v8)
        | .fileReadBytes => fr
        | .fileWriteBytes => fw) =
      JsNum.num
        ((35/100) * (v1 / 10000) + (20/100) * (v2 / 100) +
         (15/100) * (v3 / (1000 * 1024 * 1024)) + (10/100) * (v4 / (500 * 1024 * 1024)) +
         (5/100) * (v5 / (100 * 1024 * 1024)) + (5/100) * (v6 / (10 * 1024 * 1024)) +
         (5/100) * (v7 / (10 * 1024 * 1024)) + (5/100) * (v8 / 1000))) ∧
    (∀ (g : MetricsObj) (n : MetricName),
      estimateRealisticGas (fun m => if m = n then none else g m) =
      estimateRealisticGas (fun m => if m = n then some (.num 0) else g m)) ∧
    estimateRealisticGas (fun _ => some (.num 0)) = JsNum.num 0 := by
  refine ⟨?_, ?_, ?_⟩
  · intro v1 v2 v3 v4 v5 v6 v7 v8 fr fw
    exact estimateRealisticGas_eval _ v1 v2 v3 v4 v5 v6 v7 v8
      rfl rfl rfl rfl rfl rfl rfl rfl
  · intro g n
    cases n <;>
      simp [estimateRealisticGas, metricWeights, normalizeMetric, maxValues,
        JsNum.scaleDiv, JsNum.scaleMul, JsNum.add_num_zero, zero_div, zero_mul]
  · have h := estimateRealisticGas_eval (fun _ => some (.num 0)) 0 0 0 0 0 0 0 0
      rfl rfl rfl rfl rfl rfl rfl rfl
    rw [h]
    norm_num

/-! ### Claim C8 -/

/-- The gas estimate of an all-finite Metrics Record (every field present,
every value a number), as scored by `#estimateRealisticGas`. -/
def recordGas (A : MetricName → ℚ) : JsNum :=
  estimateRealisticGas (fun n => some (.num (A n)))

/-- Closed form of `recordGas`. -/
theorem recordGas_eval (A : MetricName → ℚ) :
    recordGas A = JsNum.num
      ((35/100) * (A .cpuTimeMs / 10000) + (20/100) * (A .cpuPercentage / 100) +
       (15/100) * (A .memoryRSS / (1000 * 1024 * 1024)) +
       (10/100) * (A .memoryHeapUsed / (500 * 1024 * 1024)) +
       (5/100) * (A .memoryExternal / (100 * 1024 * 1024)) +
       (5/100) * (A .sentBytes / (10 * 1024 * 1024)) +
       (5/100) * (A .receivedBytes / (10 * 1024 * 1024)) +
       (5/100) * (A .wallTimeMs / 1000)) :=
  estimateRealisticGas_eval _ _ _ _ _ _ _ _ _ rfl rfl rfl rfl rfl rfl rfl rfl

/-- Claim C8: for two all-finite Metrics Records identical except that one
weighted metric is strictly larger in `B`, the gas estimate of `B` is at
least that of `A` (every weight and ceiling is positive). -/
theorem estimateRealisticGas_monotone (A B : MetricName → ℚ) (n0 : MetricName)
    (hw : n0 ∈ weightNames)
    (hother : ∀ m, m ≠ n0 → A m = B m)
    (hlt : A n0 < B n0) :
    ∃ a b : ℚ, recordGas A = JsNum.num a ∧ recordGas B = JsNum.num b ∧ a ≤ b := by
  refine ⟨_, _, recordGas_eval A, recordGas_eval B, ?_⟩
  cases n0
  case fileReadBytes => exact absurd hw (by decide)
  case fileWriteBytes => exact absurd hw (by decide)
  case cpuTimeMs =>
    linarith [hother .cpuPercentage (by decide), hother .memoryRSS (by decide),
      hother .memoryHeapUsed (by decide), hother .memoryExternal (by decide),
      hother .sentBytes (by decide), hother .receivedBytes (by decide),
      hother .wallTimeMs (by decide), hlt]
  case cpuPercentage =>
    linarith [hother .cpuTimeMs (by decide), hother .memoryRSS (by decide),
      hother .memoryHeapUsed (by decide), hother .memoryExternal (by decide),
      hother .sentBytes (by decide), hother .receivedBytes (by decide),
      hother .wallTimeMs (by decide), hlt]
  case memoryRSS =>
    linarith [hother .cpuTimeMs (by decide), hother .cpuPercentage (by decide),
      hother .memoryHeapUsed (by decide), hother .memoryExternal (by decide),
      hother .sentBytes (by decide), hother .receivedBytes (by decide),
      hother .wallTimeMs (by decide), hlt]
  case memoryHeapUsed =>
    linarith [hother .cpuTimeMs (by decide), hother .cpuPercentage (by decide),
      hother .memoryRSS (by decide), hother .memoryExternal (by decide),
      hother .sentBytes (by decide), hother .receivedBytes (by decide),
      hother .wallTimeMs (by decide), hlt]
  case memoryExternal =>
    linarith [hother .cpuTimeMs (by decide), hother .cpuPercentage (by decide),
      hother .memoryRSS (by decide), hother .memoryHeapUsed (by decide),
      hother .sentBytes (by decide), hother .receivedBytes (by decide),
      hother .wallTimeMs (by decide), hlt]
  case sentBytes =>
    linarith [hother .cpuTimeMs (by decide), hother .cpuPercentage (by decide),
      hother .memoryRSS (by decide), hother .memoryHeapUsed (by decide),
      hother .memoryExternal (by decide), hother .receivedBytes (by decide),
      hother .wallTimeMs (by decide), hlt]
  case receivedBytes =>
    linarith [hother .cpuTimeMs (by decide), hother .cpuPercentage (by decide),
      hother .memoryRSS (by decide), hother .memoryHeapUsed (by decide),
      hother .memoryExternal (by decide), hother .sentBytes (by decide),
      hother .wallTimeMs (by decide), hlt]
  case wallTimeMs =>
    linarith [hother .cpuTimeMs (by decide), hother .cpuPercentage (by decide),
      hother .memoryRSS (by decide), hother .memoryHeapUsed (by decide),
      hother .memoryExternal (by decide), hother .sentBytes (by decide),
      hother .receivedBytes (by decide), hlt]

/-- Instantiation of the monotonicity theorem: the all-zero record against
the record with `cpuTimeMs = 1`. -/
theorem estimateRealisticGas_monotone_witness :
    MetricName.cpuTimeMs ∈ weightNames ∧
    (∀ m : MetricName, m ≠ MetricName.cpuTimeMs →
      (fun _ : MetricName => (0 : ℚ)) m =
      (fun n : MetricName => if n = MetricName.cpuTimeMs then (1 : ℚ) else 0) m) ∧
    (fun _ : MetricName => (0 : ℚ)) MetricName.cpuTimeMs <
      (fun n : MetricName => if n = MetricName.cpuTimeMs then (1 : ℚ) else 0)
        MetricName.cpuTimeMs ∧
    ∃ a b : ℚ,
      recordGas (fun _ => 0) = JsNum.num a ∧
      recordGas (fun n => if n = MetricName.cpuTimeMs then 1 else 0) = JsNum.num b ∧
      a ≤ b := by
  have hother : ∀ m : MetricName, m ≠ MetricName.cpuTimeMs →
      (fun _ : MetricName => (0 : ℚ)) m =
      (fun n : MetricName => if n = MetricName.cpuTimeMs then (1 : ℚ) else 0) m := by
    intro m hm
    simp [hm]
  refine ⟨by decide, hother, by norm_num, ?_⟩
  exact estimateRealisticGas_monotone (fun _ => 0)
    (fun n => if n = MetricName.cpuTimeMs then 1 else 0) MetricName.cpuTimeMs
    (by decide) hother (by norm_num)

/-! ### Claim C7 -/

/-- Claim C7: `#generateReport` is a total function of the Metrics Record
(it is a plain Lean `def`, so it has no failure path): `cpuTimeMs` and
`wallTimeMs` pass through verbatim, the three memory fields are formatted as
value/1 048 576 to two decimals with suffix " MB", network and file traffic
as (sum)/1024 to two decimals with suffix " KB"; on the spec's concrete
record the four formatted fields are "5.00 MB", "2.00 MB", "0.50 MB" and
"2.93 KB". -/
theorem generateReport_spec :
    (∀ m : MetricsRec,
      (generateReport m).cpuTimeMs = m.cpuTimeMs ∧
      (generateReport m).wallTimeMs = m.wallTimeMs ∧
      (generateReport m).peakMemoryRSS = jsToFixed2 (m.memoryRSS / 1048576) ++ " MB" ∧
      (generateReport m).memoryHeapUsed = jsToFixed2 (m.memoryHeapUsed / 1048576) ++ " MB" ∧
      (generateReport m).memoryExternal = jsToFixed2 (m.memoryExternal / 1048576) ++ " MB" ∧
      (generateReport m).networkTransferred =
        jsToFixed2 ((m.sentBytes + m.receivedBytes) / 1024) ++ " KB" ∧
      (generateReport m).fileIOKB =
        jsToFixed2 ((m.fileReadBytes + m.fileWriteBytes) / 1024) ++ " KB") ∧
    ((generateReport ⟨0, 0, 2 * 1024 * 1024, 5 * 1024 * 1024, 512 * 1024,
        JsNum.num 0, 1000, 2000, 0, 0⟩).peakMemoryRSS = "5.00 MB" ∧
     (generateReport ⟨0, 0, 2 * 1024 * 1024, 5 * 1024 * 1024, 512 * 1024,
        JsNum.num 0, 1000, 2000, 0, 0⟩).memoryHeapUsed = "2.00 MB" ∧
     (generateReport ⟨0, 0, 2 * 1024 * 1024, 5 * 1024 * 1024, 512 * 1024,
        JsNum.num 0, 1000, 2000, 0, 0⟩).memoryExternal = "0.50 MB" ∧
     (generateReport ⟨0, 0, 2 * 1024 * 1024, 5 * 1024 * 1024, 512 * 1024,
        JsNum.num 0, 1000, 2000, 0, 0⟩).networkTransferred = "2.93 KB") := by
  constructor
  · intro m
    refine ⟨rfl, rfl, ?_, ?_, ?_, rfl, rfl⟩ <;> norm_num [generateReport]
  · refine ⟨?_, ?_, ?_, ?_⟩ <;>
    · simp only [generateReport]
      norm_num
      rw [jsToFixed2]
      norm_num
      decide

/-! ### Claim C10 -/

/-- Claim C10: the `#trackFileWrite` wrapper increments `fileWriteBytes` by
the byte length of a non-empty payload regardless of the underlying write's
outcome, and does so before delegating to the underlying write (trace
position 0 versus 1); the `#trackFileRead` wrapper leaves `fileReadBytes`
unchanged when the underlying read reports a (truthy) error or hands back no
buffer, and increments it by the buffer length on an error-free read. -/
theorem trackFile_counting (st1 st2 st3 st4 : Counters) (data d : List UInt8)
    (res : Option JsVal) (err : JsVal)
    (hdata : data ≠ []) (herr : jsTruthy err = true) :
    ((trackFileWrite st1 data res).1.fileWriteBytes =
        st1.fileWriteBytes + (data.length : ℚ) ∧
      (trackFileWrite st1 data res).2.1.get? 0 = some (FsEv.count data.length) ∧
      (trackFileWrite st1 data res).2.1.get? 1 = some FsEv.delegate) ∧
    (trackFileRead st2 (some err) (some d)).1.fileReadBytes = st2.fileReadBytes ∧
    (trackFileRead st3 none (some d)).1.fileReadBytes =
      st3.fileReadBytes + (d.length : ℚ) ∧
    (trackFileRead st4 none none).1.fileReadBytes = st4.fileReadBytes := by
  refine ⟨⟨?_, ?_, ?_⟩, ?_, ?_, ?_⟩ <;>
    simp [trackFileWrite, trackFileRead, hdata, herr]

/-- Instantiation of the file-interception theorem at a one-byte write whose
underlying call fails, and a failing underlying read. -/
theorem trackFile_counting_witness :
    (([(37 : UInt8)] : List UInt8) ≠ []) ∧
    jsTruthy (JsVal.errObj "EACCES") = true ∧
    (trackFileWrite ⟨0, 0, 0, 0⟩ [(37 : UInt8)]
        (some (JsVal.errObj "EACCES"))).1.fileWriteBytes =
      (Counters.mk 0 0 0 0).fileWriteBytes + (([(37 : UInt8)] : List UInt8).length : ℚ) := by
  refine ⟨by decide, rfl, ?_⟩
  exact (trackFile_counting ⟨0, 0, 0, 0⟩ ⟨0, 0, 0, 0⟩ ⟨0, 0, 0, 0⟩ ⟨0, 0, 0, 0⟩
    [(37 : UInt8)] [] (some (JsVal.errObj "EACCES")) (JsVal.errObj "EACCES")
    (by decide) rfl).1.1

/-! ### Claim C5 -/

/-- Claim C5, counterexample: the older variant's public `calculateMetrics`
is not throw-free. When the two wall-clock readings coincide (both 5), the
`BigInt` quotient in `cpuPercentage` divides by zero and the resulting
RangeError propagates to the caller, for an operation that itself succeeds. -/
theorem calculateMetrics_zero_wall_counterexample :
    V0.calculateMetrics (F := ℕ) (O := ℕ) id ⟨0, 0, 0, 0, 0, 0, 0, 5, 5⟩
      (fun s => (OpOutcome.ok (JsVal.strv "done"), s)) ⟨0, 0, 0, 0⟩ =
      Except.error (JsVal.errObj "Division by zero") := by
  rfl

/-- Claim C5 as amended: whenever the wall-clock delta of the window is
nonzero, the older variant's `calculateMetrics` never throws — for every
operation, succeeding or failing — and returns exactly the Metrics Record
of the execution (snapshot deltas plus the final network counters). -/
theorem calculateMetrics_total {F O : Type} (wrapHttp : F → F) (env : Env)
    (fn : V0.MState F O → OpOutcome × V0.MState F O) (s0 : V0.MState F O)
    (hwall : env.timeEndNs - env.timeStartNs ≠ 0) :
    V0.calculateMetrics wrapHttp env fn s0 = Except.ok
      { cpuTimeMs := (env.cpuUserDelta : ℚ) / 1000
        wallTimeMs := ((Int.tdiv (env.timeEndNs - env.timeStartNs) 1000000 : ℤ) : ℚ)
        memoryHeapUsed := ((env.heapEnd - env.heapStart : ℤ) : ℚ)
        memoryRSS := ((env.rssEnd - env.rssStart : ℤ) : ℚ)
        memoryExternal := ((env.extEnd - env.extStart : ℤ) : ℚ)
        cpuPercentage := Int.tdiv (env.cpuUserDelta * 100) (env.timeEndNs - env.timeStartNs)
        sentBytes := ((fn ⟨wrapHttp s0.http_request, 0, 0, s0.otherState⟩).2).sentBytes
        receivedBytes := ((fn ⟨wrapHttp s0.http_request, 0, 0, s0.otherState⟩).2).receivedBytes } := by
  simp [V0.calculateMetrics, V0.calculateMetricsAux, V0.bigintDiv, hwall]

/-- Instantiation of the amended totality theorem at a concrete failing
operation over a one-nanosecond window. -/
theorem calculateMetrics_total_witness :
    ((1 : ℤ) - 0 ≠ 0) ∧
    ∃ r : V0.MetricsRec,
      V0.calculateMetrics (F := ℕ) (O := ℕ) id ⟨0, 0, 0, 0, 0, 0, 0, 0, 1⟩
        (fun s => (OpOutcome.thrown (JsVal.errObj "Test error"), s)) ⟨3, 0, 0, 4⟩ =
        Except.ok r := by
  exact ⟨by decide,
    ⟨_, calculateMetrics_total id ⟨0, 0, 0, 0, 0, 0, 0, 0, 1⟩
      (fun s => (OpOutcome.thrown (JsVal.errObj "Test error"), s)) ⟨3, 0, 0, 4⟩ (by decide)⟩⟩

end Gas2nel
